import Mathlib

/-!
Verification of the nitox NATS client core (src/client.rs,
src/protocol/client/pub_cmd.rs, src/protocol/server/server_error.rs) against
its natural-language specification.

Rust strings and byte buffers are modelled as `List Nat` (each element one
byte, values < 256 where relevant); machine-integer overflow is made explicit
where it matters.  Fallible Rust code returns `Except`; a Rust panic is
modelled as `Option.none` wrapped around the result.
-/

set_option maxRecDepth 4000

/-- Bytes of an ASCII string literal (used to write concrete byte buffers). -/
def ascii (s : String) : List Nat := s.toList.map Char.toNat

/-- Decimal ASCII digits of a natural number, as emitted by Rust's
`Display for usize` (used by the `format!` call in `PubCommand::into_vec`). -/
def natToDecBytes (n : Nat) : List Nat := (Nat.toDigits 10 n).map Char.toNat

/-- UTF-8 continuation byte test (0x80 ..= 0xBF). -/
def isCont (b : Nat) : Bool := 128 ≤ b && b ≤ 191

/-- Fuel-indexed UTF-8 decoder (strict validation, as in Rust's
`std::str::from_utf8`): rejects overlong forms, surrogates and code points
above U+10FFFF.  The fuel is only a structural-recursion device; it is always
called with fuel equal to the buffer length, which suffices because at least
one byte is consumed per step. -/
def utf8DecodeAux : Nat → List Nat → Option (List Nat)
  | _, [] => some []
  | 0, _ :: _ => none
  | fuel + 1, b :: rest =>
    if b ≤ 127 then
      (utf8DecodeAux fuel rest).map (fun cps => b :: cps)
    else if 194 ≤ b && b ≤ 223 then
      match rest with
      | b1 :: r =>
        if isCont b1 then
          (utf8DecodeAux fuel r).map (fun cps => ((b - 192) * 64 + (b1 - 128)) :: cps)
        else none
      | [] => none
    else if 224 ≤ b && b ≤ 239 then
      match rest with
      | b1 :: b2 :: r =>
        let lo1 := if b = 224 then 160 else 128
        let hi1 := if b = 237 then 159 else 191
        if (lo1 ≤ b1 && b1 ≤ hi1) && isCont b2 then
          (utf8DecodeAux fuel r).map
            (fun cps => ((b - 224) * 4096 + (b1 - 128) * 64 + (b2 - 128)) :: cps)
        else none
      | _ => none
    else if 240 ≤ b && b ≤ 244 then
      match rest with
      | b1 :: b2 :: b3 :: r =>
        let lo1 := if b = 240 then 144 else 128
        let hi1 := if b = 244 then 143 else 191
        if (lo1 ≤ b1 && b1 ≤ hi1) && (isCont b2 && isCont b3) then
          (utf8DecodeAux fuel r).map
            (fun cps =>
              ((b - 240) * 262144 + (b1 - 128) * 4096 + (b2 - 128) * 64 + (b3 - 128)) :: cps)
        else none
      | _ => none
    else none

/-- UTF-8 decoding of a byte buffer into Unicode code points; `none` models
`std::str::from_utf8` returning `Err(Utf8Error)`. -/
def utf8Decode (l : List Nat) : Option (List Nat) := utf8DecodeAux l.length l

/-- UTF-8 encoding of one code point (Rust `char` → bytes). -/
def utf8EncodeChar (c : Nat) : List Nat :=
  if c ≤ 127 then [c]
  else if c ≤ 2047 then [192 + c / 64, 128 + c % 64]
  else if c ≤ 65535 then [224 + c / 4096, 128 + (c / 64) % 64, 128 + c % 64]
  else [240 + c / 262144, 128 + (c / 4096) % 64, 128 + (c / 64) % 64, 128 + c % 64]

/-- UTF-8 encoding of a code-point sequence (Rust `&str` → `as_bytes`). -/
def utf8Encode (cps : List Nat) : List Nat := (cps.map utf8EncodeChar).flatten

/-- Rust `char::is_whitespace` (the Unicode White_Space property), on code
points. -/
def isWsCp (c : Nat) : Bool :=
  (9 ≤ c && c ≤ 13) || c = 32 || c = 133 || c = 160 || c = 5760 ||
  (8192 ≤ c && c ≤ 8202) || c = 8232 || c = 8233 || c = 8239 || c = 8287 || c = 12288

/-- Accumulator-based splitter behind `splitWs`. -/
def splitWsAux : List Nat → List Nat → List (List Nat)
  | [], acc => if acc.isEmpty then [] else [acc.reverse]
  | c :: rest, acc =>
    if isWsCp c then
      if acc.isEmpty then splitWsAux rest [] else acc.reverse :: splitWsAux rest []
    else splitWsAux rest (c :: acc)

/-- Rust `str::split_whitespace` on a code-point sequence: maximal non-empty
runs of non-whitespace characters. -/
def splitWs (l : List Nat) : List (List Nat) := splitWsAux l []

/-- Value of one ASCII decimal digit, if any. -/
def decDigitVal (c : Nat) : Option Nat := if 48 ≤ c && c ≤ 57 then some (c - 48) else none

/-- Horner evaluation of a digit run; `none` on the first non-digit. -/
def decValueAux : List Nat → Nat → Option Nat
  | [], acc => some acc
  | c :: rest, acc =>
    match decDigitVal c with
    | some d => decValueAux rest (acc * 10 + d)
    | none => none

/-- Rust `str::parse::<usize>()` on a code-point token: an optional leading
plus sign, then a non-empty run of ASCII decimal digits; overflow above
`usize::MAX` (64-bit) is a `ParseIntError`.  `none` models `Err`. -/
def parseUsize (tok : List Nat) : Option Nat :=
  let t := match tok with
    | 43 :: rest => rest
    | _ => tok
  match t with
  | [] => none
  | _ =>
    match decValueAux t 0 with
    | some v => if v < 18446744073709551616 then some v else none
    | none => none

/-- Rust `iter().position(|b| *b == b'\r')`: index of the first CR byte. -/
def findCR : List Nat → Option Nat
  | [] => none
  | b :: rest => if b = 13 then some 0 else (findCR rest).map (· + 1)

/-- The `PubCommand` struct of src/protocol/client/pub_cmd.rs.  `subject` and
`reply_to` are the UTF-8 bytes of the Rust `String`s; `payload` is the raw
`Bytes` buffer. -/
structure PubCommand where
  subject : List Nat
  reply_to : Option (List Nat)
  payload : List Nat
deriving DecidableEq, Repr

/-- The `CommandError` variants reachable from `PubCommand::try_parse`
(declared outside src/; variant set read off the uses in pub_cmd.rs: the two
explicit constructors plus the `From` conversions used by the two `?`
operators). -/
inductive CommandError
  | IncompleteCommandError
  | CommandMalformed
  | FromUtf8Error
  | FromParseIntError
deriving DecidableEq, Repr

deriving instance DecidableEq for Except

/-- `PubCommand::into_vec` (pub_cmd.rs lines 17-31): the bytes of
`format!("PUB\t{}{}\t{}\r\n", subject, rt, payload.len())` — where `rt` is
empty or `"\t" ++ reply_to` — followed by the payload and a final CRLF. -/
def intoVec (c : PubCommand) : List Nat :=
  let rt : List Nat :=
    match c.reply_to with
    | some r => 9 :: r
    | none => []
  let cmd_str := ascii "PUB" ++ [9] ++ c.subject ++ rt ++ [9]
      ++ natToDecBytes c.payload.length ++ [13, 10]
  cmd_str ++ c.payload ++ [13, 10]

/-- The panic-free tail of `PubCommand::try_parse` (pub_cmd.rs lines 45-76),
acting on the header slice `buf[..payload_start]` and the payload slice
`buf[payload_start..len - 2]` already extracted by the caller: decode the
header as UTF-8, split it on whitespace, take the leading token as the verb
and check it is PUB, take the LAST remaining token (`next_back`) as the
declared payload length, parse it as usize and compare with the actual
payload length, then read subject and optional reply_to positionally. -/
def parsePub (header payload : List Nat) : Except CommandError PubCommand :=
  match utf8Decode header with
  | none => Except.error CommandError.FromUtf8Error
  | some chars =>
    match splitWs chars with
    | [] => Except.error CommandError.CommandMalformed
    | cmd :: rest =>
      if cmd ≠ ascii "PUB" then Except.error CommandError.CommandMalformed
      else
        match rest.getLast? with
        | none => Except.error CommandError.CommandMalformed
        | some lenTok =>
          match parseUsize lenTok with
          | none => Except.error CommandError.FromParseIntError
          | some payload_len =>
            if payload.length ≠ payload_len then Except.error CommandError.CommandMalformed
            else
              match rest.dropLast with
              | [] => Except.error CommandError.CommandMalformed
              | subjTok :: rest2 =>
                Except.ok
                  { subject := utf8Encode subjTok
                    reply_to := rest2.head?.map utf8Encode
                    payload := payload }

/-- `PubCommand::try_parse` (pub_cmd.rs lines 33-77), byte for byte:
`none` models a Rust panic (the unguarded slice expressions
`buf[len - 2..]` and `buf[..len - 3]` panic when `len < 2` resp. `len < 3`,
by usize underflow in debug builds and out-of-range slicing in release
builds; the `buf[payload_start + 1]` index is kept as a guarded lookup even
though it is always in range).  Note the payload is taken as
`buf[payload_start..len - 2]`, i.e. starting AT the header CR, exactly as in
the source. -/
def tryParse (buf : List Nat) : Option (Except CommandError PubCommand) :=
  if buf.length < 2 then none
  else if buf.drop (buf.length - 2) ≠ [13, 10] then
    some (Except.error CommandError.IncompleteCommandError)
  else if buf.length < 3 then none
  else
    match findCR (buf.take (buf.length - 3)) with
    | none => some (Except.error CommandError.CommandMalformed)
    | some payload_start =>
      match buf[payload_start + 1]? with
      | none => none
      | some b1 =>
        if b1 ≠ 10 then some (Except.error CommandError.CommandMalformed)
        else some (parsePub (buf.take payload_start)
          ((buf.take (buf.length - 2)).drop payload_start))

/-- The error type of the client (declared outside src/; the only variant
reached by the code under verification is `NatsError::InnerBrokenChain`,
used in client.rs). -/
inductive NatsError
  | InnerBrokenChain
deriving DecidableEq, Repr

/-- Modelled from the spec: the `SubCommand` struct is declared in a file
not under src/; its fields are those of the spec data model
(SUB carries subject, optional queue group and sid) and match the literal
uses in client.rs lines 215-219. -/
structure SubCommand where
  subject : List Nat
  queue_group : Option (List Nat)
  sid : List Nat
deriving DecidableEq, Repr

/-- Modelled from the spec: the `UnsubCommand` struct is declared in a file
not under src/; its fields are those of the spec data model
(UNSUB carries sid and optional max_msgs) and match the literal uses in
client.rs lines 223-226. -/
structure UnsubCommand where
  sid : List Nat
  max_msgs : Option Nat
deriving DecidableEq, Repr

/-- Modelled from the spec: the `Message` struct (a decoded MSG frame) is
declared in a file not under src/; the spec data model gives
MSG(subject, sid, reply_to?, payload), and client.rs reads `msg.sid`. -/
structure Message where
  subject : List Nat
  sid : List Nat
  reply_to : Option (List Nat)
  payload : List Nat
deriving DecidableEq, Repr

/-- The `Op` enum of decoded operations (declared outside src/; the variant
list is the spec's Operation data model, and client.rs matches on
`Op::MSG` and constructs `Op::CONNECT`, `Op::PUB`, `Op::SUB`, `Op::UNSUB`).
The CONNECT options are omitted: no claim inspects them. -/
inductive Op
  | CONNECT
  | PING
  | PONG
  | OK
  | INFO
  | ERR
  | PUB (c : PubCommand)
  | SUB (c : SubCommand)
  | UNSUB (c : UnsubCommand)
  | MSG (m : Message)
deriving DecidableEq, Repr

/-- One end of an `mpsc::unbounded` channel as seen by the demultiplexer:
`closed` is true when the receiving half has been dropped (so
`unbounded_send` fails), `msgs` is the queue of messages sent so far. -/
structure Sink where
  closed : Bool
  msgs : List Message
deriving DecidableEq, Repr

/-- State of `NatsClientMultiplexer`: the subscription registry
`subs_tx : HashMap<NatsSubscriptionId, UnboundedSender<Message>>` (as an
association list keyed by sid bytes), and the control channel `other_tx`
(its queue of forwarded ops, plus whether its receiver is gone). -/
structure MuxState where
  subs : List (List Nat × Sink)
  control : List Op
  controlClosed : Bool
deriving DecidableEq, Repr

/-- `HashMap::get` on the registry: the sink registered under a sid. -/
def lookupSub : List (List Nat × Sink) → List Nat → Option Sink
  | [], _ => none
  | e :: rest, sid => if e.1 = sid then some e.2 else lookupSub rest sid

/-- Point update of the sink stored under a sid (used to model an
`unbounded_send` through the sender obtained from `HashMap::get`). -/
def updateSub (subs : List (List Nat × Sink)) (sid : List Nat) (f : Sink → Sink) :
    List (List Nat × Sink) :=
  subs.map (fun e => if e.1 = sid then (e.1, f e.2) else e)

/-- `HashMap::remove` on the registry (client.rs `remove_sid`). -/
def removeSub (subs : List (List Nat × Sink)) (sid : List Nat) :
    List (List Nat × Sink) :=
  subs.filter (fun e => !(e.1 == sid))

/-- `HashMap::insert` on the registry: replaces any entry already stored
under the sid (dropping its sender) and stores the new sink.  The
association list is kept with the new entry in front; only lookup behavior
matters. -/
def insertSub (subs : List (List Nat × Sink)) (sid : List Nat) (v : Sink) :
    List (List Nat × Sink) :=
  (sid, v) :: removeSub subs sid

/-- `tx.unbounded_send(msg)` on a per-subscription sink, with the `Result`
discarded (`let _ = ...` in client.rs line 89): a closed sink is left
unchanged, an open one receives the message. -/
def pushSink (s : Sink) (m : Message) : Sink :=
  if s.closed then s else { s with msgs := s.msgs ++ [m] }

/-- The body of the demultiplexer's `for_each` closure
(client.rs lines 82-101): a MSG is looked up by sid and pushed onto the
matching subscription sink if one is registered (silently dropped
otherwise); every other op is forwarded to the control channel by
`unbounded_send`, whose result is likewise discarded.  The closure always
returns `future::ok`, so processing one op always yields a next state. -/
def processOp (mux : MuxState) (op : Op) : MuxState :=
  match op with
  | Op.MSG m =>
    match lookupSub mux.subs m.sid with
    | some _ => { mux with subs := updateSub mux.subs m.sid (fun s => pushSink s m) }
    | none => mux
  | o => if mux.controlClosed then mux else { mux with control := mux.control ++ [o] }

/-- The demultiplexer task consuming a whole sequence of decoded ops. -/
def processOps (mux : MuxState) (ops : List Op) : MuxState :=
  ops.foldl processOp mux

/-- Observable actions of the client, in execution order: an op accepted
into the outbound queue, a sid registered in the registry, a sid removed. -/
inductive Event
  | enq (op : Op)
  | reg (sid : List Nat)
  | unreg (sid : List Nat)
deriving DecidableEq, Repr

/-- Client-side state: whether the outbound channel to the writer task is
closed (the writer task has terminated and dropped the receiver), the queue
contents in submission order, the multiplexer state, and the log of
observable actions in the order they happened. -/
structure ClientState where
  queueClosed : Bool
  queue : List Op
  mux : MuxState
  log : List Event
deriving DecidableEq, Repr

/-- `NatsClientSender::send` (client.rs lines 51-60): an eager
`unbounded_send` into the outbound queue.  It succeeds exactly when the
channel is open — i.e. when the op is accepted into the queue; nothing here
depends on a socket write — and fails with `NatsError::InnerBrokenChain`
when the writer task has terminated and the channel is closed. -/
def send (st : ClientState) (op : Op) : Except NatsError Unit × ClientState :=
  if st.queueClosed then (Except.error NatsError.InnerBrokenChain, st)
  else (Except.ok (), { st with queue := st.queue ++ [op], log := st.log ++ [Event.enq op] })

/-- `NatsClientMultiplexer::for_sid` (client.rs lines 110-117): create a
fresh channel, insert its sender into the registry under the sid (replacing
any previous entry), and hand back the receiving half. -/
def for_sid (st : ClientState) (sid : List Nat) : ClientState :=
  { st with
    mux := { st.mux with subs := insertSub st.mux.subs sid { closed := false, msgs := [] } }
    log := st.log ++ [Event.reg sid] }

/-- `NatsClientMultiplexer::remove_sid` (client.rs lines 119-123).  Note:
nothing in client.rs ever calls it. -/
def remove_sid (st : ClientState) (sid : List Nat) : ClientState :=
  { st with
    mux := { st.mux with subs := removeSub st.mux.subs sid }
    log := st.log ++ [Event.unreg sid] }

/-- `NatsClient::publish` (client.rs lines 192-194): enqueue PUB. -/
def publish (st : ClientState) (cmd : PubCommand) : Except NatsError Unit × ClientState :=
  send st (Op.PUB cmd)

/-- `NatsClient::unsubscribe` (client.rs lines 196-198): enqueue UNSUB.
The registry is not touched (`remove_sid` is never called). -/
def unsubscribe (st : ClientState) (cmd : UnsubCommand) : Except NatsError Unit × ClientState :=
  send st (Op.UNSUB cmd)

/-- `NatsClient::subscribe` (client.rs lines 200-205): enqueue SUB via
`send`, and only then — in the `and_then` continuation — register the
delivery sink under `cmd.sid` with `for_sid`. -/
def subscribe (st : ClientState) (cmd : SubCommand) : Except NatsError Unit × ClientState :=
  match send st (Op.SUB cmd) with
  | (Except.error e, st1) => (Except.error e, st1)
  | (Except.ok _, st1) => (Except.ok (), for_sid st1 cmd.sid)

/-- `PubCommandBuilder::generate_reply_to` (pub_cmd.rs lines 81-84):
`thread_rng().sample_iter(&Alphanumeric).take(16).collect()`.  The random
generator is modelled as an injected supply of characters; the inbox is its
first sixteen samples. -/
def generateReplyTo (supply : Nat → Nat) : List Nat :=
  (List.range 16).map supply

/-- The character set of the `Alphanumeric` distribution: ASCII digits and
ASCII letters of either case. -/
def isAlnum (c : Nat) : Bool :=
  (48 ≤ c && c ≤ 57) || (65 ≤ c && c ≤ 90) || (97 ≤ c && c ≤ 122)

/-- `NatsClient::request`, command phase (client.rs lines 207-236): build
the PUB (reply_to = the generated inbox), the SUB (subject = inbox,
no queue group, a freshly generated sid — the generator
`SubCommandBuilder::generate_sid` lives outside src/ and the sid is taken
as a parameter) and the UNSUB (max_msgs = 1); then send SUB, UNSUB and PUB
in that order, each in the `and_then` continuation of the previous send,
and finally register the sink for the sid with `for_sid`. -/
def request (st : ClientState) (subject payload : List Nat) (supply : Nat → Nat)
    (sid : List Nat) : Except NatsError Unit × ClientState :=
  let inbox := generateReplyTo supply
  let pub_cmd : PubCommand := { subject := subject, reply_to := some inbox, payload := payload }
  let sub_cmd : SubCommand := { subject := inbox, queue_group := none, sid := sid }
  let unsub_cmd : UnsubCommand := { sid := sid, max_msgs := some 1 }
  match send st (Op.SUB sub_cmd) with
  | (Except.error e, st1) => (Except.error e, st1)
  | (Except.ok _, st1) =>
    match send st1 (Op.UNSUB unsub_cmd) with
    | (Except.error e, st2) => (Except.error e, st2)
    | (Except.ok _, st2) =>
      match send st2 (Op.PUB pub_cmd) with
      | (Except.error e, st3) => (Except.error e, st3)
      | (Except.ok _, st3) => (Except.ok (), for_sid st3 sid)

/-- Possible outcomes of the await phase of `request`. -/
inductive AwaitOutcome
  | ok (m : Message)
  | brokenChain
  | panicked
  | pending
deriving DecidableEq, Repr

/-- `NatsClient::request`, await phase (client.rs lines 236-241):
`rx.for_sid(sid).take(1).into_future().map(|(maybe_message, _)| maybe_message.unwrap()).map_err(|_| NatsError::InnerBrokenChain)`,
as a function of what the sid's sink eventually carries: `delivered` is the
sequence of messages pushed onto the sink, `closed` whether the sender side
is dropped before any message arrives.  A first message resolves the future
with it.  If the stream ends with no message — the receiver of an unbounded
channel yields `None` when every sender is gone; it never yields an error,
so the adjacent `map_err` can never fire — then `maybe_message` is `None`
and the `.unwrap()` panics. -/
def requestAwait (delivered : List Message) (closed : Bool) : AwaitOutcome :=
  match delivered with
  | m :: _ => AwaitOutcome.ok m
  | [] => if closed then AwaitOutcome.panicked else AwaitOutcome.pending

/-- A freshly connected client: open queue, nothing enqueued, empty
registry, empty log. -/
def initState : ClientState :=
  { queueClosed := false
    queue := []
    mux := { subs := [], control := [], controlClosed := false }
    log := [] }

/-- Concrete subscription command (subject "a", sid "1"). -/
def subCmd0 : SubCommand := { subject := ascii "a", queue_group := none, sid := ascii "1" }

/-- Concrete subscription command (subject "b", sid "2"). -/
def subCmdW : SubCommand := { subject := ascii "b", queue_group := none, sid := ascii "2" }

/-- An open delivery sink with nothing delivered yet. -/
def sinkOpen : Sink := { closed := false, msgs := [] }

/-- A delivery sink whose consumer has gone away. -/
def sinkClosed : Sink := { closed := true, msgs := [] }

/-- A client that has a subscription registered under sid "1". -/
def stWithSub1 : ClientState :=
  { queueClosed := false
    queue := []
    mux := { subs := [(ascii "1", sinkOpen)], control := [], controlClosed := false }
    log := [] }

/-- A client whose writer task has terminated: the outbound queue is closed. -/
def stClosed : ClientState :=
  { queueClosed := true
    queue := []
    mux := { subs := [], control := [], controlClosed := false }
    log := [] }

/-- Concrete unsubscribe command for sid "1". -/
def unsubCmd0 : UnsubCommand := { sid := ascii "1", max_msgs := none }

/-- A concrete MSG for sid "1". -/
def msgW : Message :=
  { subject := ascii "a", sid := ascii "1", reply_to := none, payload := ascii "hello" }

/-- A concrete MSG for a sid ("3") that no fixture registry contains. -/
def msgUnknown : Message :=
  { subject := ascii "a", sid := ascii "3", reply_to := none, payload := ascii "x" }

/-- A demultiplexer with two live subscriptions, sids "1" and "2". -/
def muxW : MuxState :=
  { subs := [(ascii "1", sinkOpen), (ascii "2", sinkOpen)], control := [], controlClosed := false }

/-- A demultiplexer where sid "1" has a dead consumer and sid "2" a live one. -/
def muxClosedSink : MuxState :=
  { subs := [(ascii "1", sinkClosed), (ascii "2", sinkOpen)], control := [], controlClosed := false }

/-- A demultiplexer whose control-channel consumer has gone away. -/
def muxCtlClosed : MuxState :=
  { subs := [], control := [], controlClosed := true }

/-- A constant character supply for instantiating the modelled rng. -/
def supplyW : Nat → Nat := fun _ => 97

/-- Helper: the index returned by `findCR` is a valid index of its input. -/
theorem findCR_lt (l : List Nat) (i : Nat) (h : findCR l = some i) : i < l.length := by
  induction l generalizing i with
  | nil => simp [findCR] at h
  | cons b rest ih =>
    by_cases hb : b = 13
    · rw [findCR, if_pos hb] at h
      simp at h
      simp [← h]
    · rw [findCR, if_neg hb] at h
      cases hr : findCR rest with
      | none => rw [hr] at h; simp at h
      | some j =>
        rw [hr] at h
        simp at h
        have := ih j hr
        simp
        omega

/-- C1: decoding the encoding of the PubCommand with subject "foo", no
reply_to and payload "bar" does not give the command back: `try_parse` takes
the payload slice starting at the header CR, so the extracted payload is
"\r\nbar" (5 bytes) while the header declares 3, and the parse fails with
CommandMalformed instead of succeeding.  This evaluates the code at the
failing input of the round-trip law. -/
theorem roundtrip_foo_bar_malformed :
    tryParse (intoVec { subject := ascii "foo", reply_to := none, payload := ascii "bar" }) =
      some (Except.error CommandError.CommandMalformed) := by decide

/-- C7: `PubCommand::into_vec` emits exactly
PUB TAB subject TAB len CRLF payload CRLF without a reply_to and
PUB TAB subject TAB reply_to TAB len CRLF payload CRLF with one, where len is
the decimal byte length of the payload; in particular subject "foo" with
payload "bar" and no reply_to encodes to "PUB\tfoo\t3\r\nbar\r\n". -/
theorem pub_encoding_shape :
    (∀ s p : List Nat, intoVec { subject := s, reply_to := none, payload := p } =
        ascii "PUB" ++ [9] ++ s ++ [9] ++ natToDecBytes p.length ++ [13, 10] ++ p ++ [13, 10]) ∧
    (∀ s r p : List Nat, intoVec { subject := s, reply_to := some r, payload := p } =
        ascii "PUB" ++ [9] ++ s ++ [9] ++ r ++ [9]
          ++ natToDecBytes p.length ++ [13, 10] ++ p ++ [13, 10]) ∧
    intoVec { subject := ascii "foo", reply_to := none, payload := ascii "bar" } =
      ascii "PUB\tfoo\t3\r\nbar\r\n" := by
  refine ⟨?_, ?_, by decide⟩
  · intro s p
    simp [intoVec, List.append_assoc]
  · intro s r p
    simp [intoVec, List.append_assoc]

/-- C9: `PubCommand::try_parse` is total (returns Ok or Err, modelled
`isSome`) on every buffer of length at least 3, but panics (modelled `none`)
on every buffer of length 0 or 1, where the slice `buf[len - 2..]`
underflows / indexes out of range. -/
theorem tryParse_totality_boundary :
    ∀ buf : List Nat,
      (3 ≤ buf.length → (tryParse buf).isSome = true) ∧
      (buf.length ≤ 1 → tryParse buf = none) := by
  intro buf
  constructor
  · intro h3
    unfold tryParse
    rw [if_neg (by omega)]
    split
    · simp
    · rw [if_neg (by omega)]
      cases hf : findCR (buf.take (buf.length - 3)) with
      | none => simp
      | some ps =>
        have hps : ps < (buf.take (buf.length - 3)).length := findCR_lt _ _ hf
        have hlt : ps + 1 < buf.length := by
          rw [List.length_take] at hps
          omega
        have hsome : buf[ps + 1]? = some (buf[ps + 1]) := List.getElem?_eq_getElem hlt
        simp only [hsome]
        split <;> simp
  · intro h1
    unfold tryParse
    rw [if_pos (by omega)]

/-- Witness for C9 at concrete buffers: the 3-byte buffer "P\r\n" parses to a
result, and the empty buffer panics. -/
theorem tryParse_totality_boundary_witness :
    (tryParse [80, 13, 10]).isSome = true ∧ tryParse ([] : List Nat) = none :=
  ⟨(tryParse_totality_boundary [80, 13, 10]).1 (by decide),
   (tryParse_totality_boundary []).2 (by decide)⟩

/-- Helper: inserting a sink under a sid makes lookup of that sid return it. -/
theorem lookup_insert_self (subs : List (List Nat × Sink)) (sid : List Nat) (v : Sink) :
    lookupSub (insertSub subs sid v) sid = some v := by
  simp [insertSub, lookupSub]

/-- Helper: a point update of the sink under `sid` is seen by lookup of
`sid` through `Option.map`. -/
theorem lookup_update_self (subs : List (List Nat × Sink)) (sid : List Nat) (f : Sink → Sink) :
    lookupSub (updateSub subs sid f) sid = (lookupSub subs sid).map f := by
  induction subs with
  | nil => rfl
  | cons e rest ih =>
    by_cases h : e.1 = sid
    · simp [updateSub, lookupSub, h]
    · simp only [updateSub, List.map_cons, lookupSub, if_neg h]
      simpa [updateSub] using ih

/-- Helper: a point update of the sink under `sid` is invisible to lookup of
any other sid. -/
theorem lookup_update_ne (subs : List (List Nat × Sink)) (sid sid2 : List Nat) (f : Sink → Sink)
    (h : sid2 ≠ sid) :
    lookupSub (updateSub subs sid f) sid2 = lookupSub subs sid2 := by
  induction subs with
  | nil => rfl
  | cons e rest ih =>
    by_cases he2 : e.1 = sid2
    · have hne : e.1 ≠ sid := fun hh => h (he2 ▸ hh)
      simp [updateSub, lookupSub, if_neg hne, if_pos he2]
    · by_cases he : e.1 = sid
      · simp only [updateSub, List.map_cons, if_pos he, lookupSub, if_neg he2]
        simpa [updateSub] using ih
      · simp only [updateSub, List.map_cons, if_neg he, lookupSub, if_neg he2]
        simpa [updateSub] using ih

/-- C2, counterexample: for a concrete subscribe on a fresh client, after
the first step of the execution (first log entry) the SUB operation has
already been enqueued while the registry registration has not yet happened —
the code enqueues SUB first and registers the sink only in the `and_then`
continuation, so registration does NOT precede the enqueue as claimed. -/
theorem subscribe_register_order_cex :
    (((subscribe initState subCmd0).snd.log.take 1).contains
        (Event.enq (Op.SUB subCmd0)) = true) ∧
    (((subscribe initState subCmd0).snd.log.take 1).contains
        (Event.reg subCmd0.sid) = false) := by decide

/-- C2, amended: subscribe first enqueues SUB on the outbound queue and only
then registers the delivery sink under cmd.sid; both effects are present
once subscribe completes, in the order enqueue-then-register. -/
theorem subscribe_enqueue_then_register :
    ∀ (st : ClientState) (cmd : SubCommand),
      st.queueClosed = false →
      (subscribe st cmd).fst = Except.ok () ∧
      (subscribe st cmd).snd.log = st.log ++ [Event.enq (Op.SUB cmd), Event.reg cmd.sid] ∧
      (subscribe st cmd).snd.queue = st.queue ++ [Op.SUB cmd] ∧
      lookupSub (subscribe st cmd).snd.mux.subs cmd.sid = some { closed := false, msgs := [] } := by
  intro st cmd h
  simp [subscribe, send, for_sid, h, lookup_insert_self]

/-- Witness for C2's amended theorem at a concrete client and command. -/
theorem subscribe_enqueue_then_register_witness :
    (subscribe initState subCmdW).fst = Except.ok () ∧
    (subscribe initState subCmdW).snd.log =
      initState.log ++ [Event.enq (Op.SUB subCmdW), Event.reg subCmdW.sid] ∧
    (subscribe initState subCmdW).snd.queue = initState.queue ++ [Op.SUB subCmdW] ∧
    lookupSub (subscribe initState subCmdW).snd.mux.subs subCmdW.sid =
      some { closed := false, msgs := [] } :=
  subscribe_enqueue_then_register initState subCmdW rfl

/-- C3, counterexample: on a client with a sink registered under sid "1",
unsubscribe for sid "1" enqueues UNSUB but the registry still holds a
delivery sink for that sid afterwards — `remove_sid` exists but is never
called, so the claim that the registry ends up without an entry is false. -/
theorem unsubscribe_keeps_registry_cex :
    (lookupSub (unsubscribe stWithSub1 unsubCmd0).snd.mux.subs (ascii "1")).isSome = true ∧
    (unsubscribe stWithSub1 unsubCmd0).snd.queue = [Op.UNSUB unsubCmd0] := by decide

/-- C3, amended: unsubscribe only enqueues the UNSUB operation; the
multiplexer state — in particular the subscription registry — is left
completely unchanged. -/
theorem unsubscribe_enqueues_only :
    ∀ (st : ClientState) (cmd : UnsubCommand),
      st.queueClosed = false →
      (unsubscribe st cmd).fst = Except.ok () ∧
      (unsubscribe st cmd).snd.queue = st.queue ++ [Op.UNSUB cmd] ∧
      (unsubscribe st cmd).snd.mux = st.mux := by
  intro st cmd h
  simp [unsubscribe, send, h]

/-- Witness for C3's amended theorem at a concrete client and command. -/
theorem unsubscribe_enqueues_only_witness :
    (unsubscribe stWithSub1 unsubCmd0).fst = Except.ok () ∧
    (unsubscribe stWithSub1 unsubCmd0).snd.queue = stWithSub1.queue ++ [Op.UNSUB unsubCmd0] ∧
    (unsubscribe stWithSub1 unsubCmd0).snd.mux = stWithSub1.mux :=
  unsubscribe_enqueues_only stWithSub1 unsubCmd0 rfl

/-- C4: evaluating the await phase of `request` at the failing input — the
sid's delivery sink closes before any MSG is delivered — shows the code
panics (the `.unwrap()` of the `None` yielded by the ended stream) instead
of returning the BrokenChain error the claim requires; the adjacent
`map_err(|_| NatsError::InnerBrokenChain)` never fires because an unbounded
receiver ends with `None` rather than an error. -/
theorem request_await_closed_panics :
    requestAwait [] true = AwaitOutcome.panicked := rfl

/-- C5: request enqueues exactly SUB(inbox, sid), UNSUB(sid, max_msgs = 1)
and PUB(subject, reply_to = inbox, payload) in this order on the outbound
queue, where the inbox is the 16-character alphanumeric string drawn from
the rng supply; the await phase resolves with the first MSG delivered on
the sid's sink. -/
theorem request_enqueues_in_order :
    ∀ (st : ClientState) (subject payload sid : List Nat) (supply : Nat → Nat),
      st.queueClosed = false →
      (∀ i, i < 16 → isAlnum (supply i) = true) →
      (request st subject payload supply sid).fst = Except.ok () ∧
      (request st subject payload supply sid).snd.queue =
        st.queue ++
          [Op.SUB { subject := generateReplyTo supply, queue_group := none, sid := sid },
           Op.UNSUB { sid := sid, max_msgs := some 1 },
           Op.PUB { subject := subject, reply_to := some (generateReplyTo supply),
                    payload := payload }] ∧
      (generateReplyTo supply).length = 16 ∧
      (∀ c ∈ generateReplyTo supply, isAlnum c = true) ∧
      (∀ (m : Message) (rest : List Message) (b : Bool),
        requestAwait (m :: rest) b = AwaitOutcome.ok m) := by
  intro st subject payload sid supply hq hsup
  refine ⟨?_, ?_, ?_, ?_, ?_⟩
  · simp [request, send, hq]
  · simp [request, send, for_sid, hq]
  · simp [generateReplyTo]
  · intro c hc
    simp [generateReplyTo] at hc
    obtain ⟨i, hi, hci⟩ := hc
    rw [← hci]
    exact hsup i hi
  · intro m rest b
    rfl

/-- Witness for C5 at a concrete client, subject, payload, sid and rng. -/
theorem request_enqueues_in_order_witness :
    (request initState (ascii "svc") (ascii "ping") supplyW (ascii "s9")).fst = Except.ok () ∧
    (request initState (ascii "svc") (ascii "ping") supplyW (ascii "s9")).snd.queue =
      initState.queue ++
        [Op.SUB { subject := generateReplyTo supplyW, queue_group := none, sid := ascii "s9" },
         Op.UNSUB { sid := ascii "s9", max_msgs := some 1 },
         Op.PUB { subject := ascii "svc", reply_to := some (generateReplyTo supplyW),
                  payload := ascii "ping" }] ∧
    (generateReplyTo supplyW).length = 16 ∧
    (∀ c ∈ generateReplyTo supplyW, isAlnum c = true) ∧
    (∀ (m : Message) (rest : List Message) (b : Bool),
      requestAwait (m :: rest) b = AwaitOutcome.ok m) :=
  request_enqueues_in_order initState (ascii "svc") (ascii "ping") (ascii "s9") supplyW rfl
    (fun _ _ => rfl)

/-- C6: the demultiplexer routes a MSG whose sid is registered onto exactly
that sid's sink (the control channel and every other sid's sink are
untouched), drops a MSG whose sid is unregistered with no effect at all,
and forwards every non-MSG operation to the single control sink. -/
theorem demux_routing :
    (∀ (mux : MuxState) (m : Message) (s : Sink),
       lookupSub mux.subs m.sid = some s →
       (processOp mux (Op.MSG m)).control = mux.control ∧
       lookupSub (processOp mux (Op.MSG m)).subs m.sid = some (pushSink s m) ∧
       (∀ sid2, sid2 ≠ m.sid →
          lookupSub (processOp mux (Op.MSG m)).subs sid2 = lookupSub mux.subs sid2)) ∧
    (∀ (mux : MuxState) (m : Message),
       lookupSub mux.subs m.sid = none → processOp mux (Op.MSG m) = mux) ∧
    (∀ (mux : MuxState) (op : Op),
       (∀ m : Message, op ≠ Op.MSG m) →
       (processOp mux op).subs = mux.subs ∧
       (processOp mux op).control =
         (if mux.controlClosed then mux.control else mux.control ++ [op])) := by
  refine ⟨?_, ?_, ?_⟩
  · intro mux m s h
    refine ⟨?_, ?_, ?_⟩
    · simp [processOp, h]
    · simp [processOp, h, lookup_update_self]
    · intro sid2 hne
      simp [processOp, h, lookup_update_ne _ _ _ _ hne]
  · intro mux m h
    simp [processOp, h]
  · intro mux op h
    cases op
    case MSG m => exact absurd rfl (h m)
    all_goals constructor
    all_goals simp only [processOp]
    all_goals split
    all_goals rfl

/-- Witness for C6: a MSG for sid "1" lands only on sink "1", a MSG for the
unknown sid "3" changes nothing, and PING goes to the control sink. -/
theorem demux_routing_witness :
    lookupSub (processOp muxW (Op.MSG msgW)).subs (ascii "1") = some (pushSink sinkOpen msgW) ∧
    lookupSub (processOp muxW (Op.MSG msgW)).subs (ascii "2") = lookupSub muxW.subs (ascii "2") ∧
    processOp muxW (Op.MSG msgUnknown) = muxW ∧
    (processOp muxW Op.PING).control =
      (if muxW.controlClosed then muxW.control else muxW.control ++ [Op.PING]) :=
  ⟨(demux_routing.1 muxW msgW sinkOpen (by decide)).2.1,
   (demux_routing.1 muxW msgW sinkOpen (by decide)).2.2 (ascii "2") (by decide),
   demux_routing.2.1 muxW msgUnknown (by decide),
   (demux_routing.2.2 muxW Op.PING (fun m h => Op.noConfusion h)).2⟩

/-- C8: `send` succeeds exactly when the outbound queue is open — i.e. when
the operation is accepted into the queue, with no socket involved in the
model — appending the op on success, and fails with InnerBrokenChain
(leaving the state unchanged) when the writer task has terminated and the
queue is closed; publish, subscribe and unsubscribe, built on `send`,
inherit the InnerBrokenChain failure. -/
theorem send_success_iff_queue_open :
    ∀ (st : ClientState) (op : Op),
      ((send st op).fst = Except.ok () ↔ st.queueClosed = false) ∧
      (st.queueClosed = false → (send st op).snd.queue = st.queue ++ [op]) ∧
      (st.queueClosed = true →
        send st op = (Except.error NatsError.InnerBrokenChain, st) ∧
        (∀ pc : PubCommand, (publish st pc).fst = Except.error NatsError.InnerBrokenChain) ∧
        (∀ sc : SubCommand, (subscribe st sc).fst = Except.error NatsError.InnerBrokenChain) ∧
        (∀ uc : UnsubCommand,
          (unsubscribe st uc).fst = Except.error NatsError.InnerBrokenChain)) := by
  intro st op
  refine ⟨?_, ?_, ?_⟩
  · cases hq : st.queueClosed
    · simp [send, hq]
    · simp [send, hq]
  · intro h
    simp [send, h]
  · intro h
    refine ⟨by simp [send, h], ?_, ?_, ?_⟩
    · intro pc
      simp [publish, send, h]
    · intro sc
      simp [subscribe, send, h]
    · intro uc
      simp [unsubscribe, send, h]

/-- Witness for C8: on an open queue a PING is accepted and appended; on a
closed queue the same send fails with InnerBrokenChain. -/
theorem send_success_iff_queue_open_witness :
    (send initState Op.PING).snd.queue = initState.queue ++ [Op.PING] ∧
    (send stClosed Op.PING).fst = Except.error NatsError.InnerBrokenChain :=
  ⟨(send_success_iff_queue_open initState Op.PING).2.1 rfl,
   congrArg Prod.fst (((send_success_iff_queue_open stClosed Op.PING).2.2 rfl).1)⟩

/-- C10: a failed push never stops the demultiplexer and never affects
anyone else: processing always continues with the next operation (the task
is a fold that never exits early), a MSG pushed to a sink whose consumer is
gone leaves the control channel, that sink and every other sid's lookup
unchanged, and a non-MSG op pushed to a dead control sink leaves the whole
state unchanged. -/
theorem demux_failed_push_harmless :
    (∀ (mux : MuxState) (op : Op) (ops : List Op),
       processOps mux (op :: ops) = processOps (processOp mux op) ops) ∧
    (∀ (mux : MuxState) (m : Message) (s : Sink),
       lookupSub mux.subs m.sid = some s → s.closed = true →
       (processOp mux (Op.MSG m)).control = mux.control ∧
       lookupSub (processOp mux (Op.MSG m)).subs m.sid = some s ∧
       (∀ sid2, sid2 ≠ m.sid →
          lookupSub (processOp mux (Op.MSG m)).subs sid2 = lookupSub mux.subs sid2)) ∧
    (∀ (mux : MuxState) (op : Op),
       (∀ m : Message, op ≠ Op.MSG m) → mux.controlClosed = true → processOp mux op = mux) := by
  refine ⟨fun _ _ _ => rfl, ?_, ?_⟩
  · intro mux m s h hc
    refine ⟨by simp [processOp, h], ?_, ?_⟩
    · simp [processOp, h, lookup_update_self, pushSink, hc]
    · intro sid2 hne
      simp [processOp, h, lookup_update_ne _ _ _ _ hne]
  · intro mux op h hc
    cases op
    case MSG m => exact absurd rfl (h m)
    all_goals simp [processOp, hc]

/-- Witness for C10: a MSG for the dead sink "1" leaves it and the live sink
"2" untouched, and a PING into a dead control sink is a no-op. -/
theorem demux_failed_push_harmless_witness :
    lookupSub (processOp muxClosedSink (Op.MSG msgW)).subs (ascii "1") = some sinkClosed ∧
    lookupSub (processOp muxClosedSink (Op.MSG msgW)).subs (ascii "2") =
      lookupSub muxClosedSink.subs (ascii "2") ∧
    processOp muxCtlClosed Op.PING = muxCtlClosed :=
  ⟨(demux_failed_push_harmless.2.1 muxClosedSink msgW sinkClosed (by decide) rfl).2.1,
   (demux_failed_push_harmless.2.1 muxClosedSink msgW sinkClosed (by decide) rfl).2.2
     (ascii "2") (by decide),
   demux_failed_push_harmless.2.2 muxCtlClosed Op.PING (fun m h => Op.noConfusion h) rfl⟩
